import Mathlib

/-
Verification of the layer-tree model and compositor of a PSD user API
(`psd_tools/user_api/psd_image.py`), via a shallow embedding in Lean 4.

External collaborators (the PIL raster library, the binary decoder) are
modelled as a free algebra of raster operations and as already-decoded
data structures, respectively; everything algorithmic in the source file
is translated directly.
-/

/-- Bounding box tuple representing (x1, y1, x2, y2), from class BBox. -/
structure BBox where
  x1 : Int
  y1 : Int
  x2 : Int
  y2 : Int
deriving DecidableEq, Repr

/-- Width of the bounding box: x2 - x1. -/
def BBox.width (b : BBox) : Int := b.x2 - b.x1

/-- Height of the bounding box: y2 - y1. -/
def BBox.height (b : BBox) : Int := b.y2 - b.y1

/-- The filtering step of combined_bbox: keep the bboxes that are not None
and have positive width and height (the list comprehension at the top of
combined_bbox). -/
def surviving (layers : List (Option BBox)) : List BBox :=
  layers.filterMap (fun ob =>
    match ob with
    | none => none
    | some b => if 0 < b.width ∧ 0 < b.height then some b else none)

/-- combined_bbox(layers): None when no bbox survives the filter, otherwise
the minimal enclosing box (min of x1/y1, max of x2/y2) of the survivors. -/
def combined_bbox (layers : List (Option BBox)) : Option BBox :=
  match surviving layers with
  | [] => none
  | b :: bs =>
    some ⟨(bs.map BBox.x1).foldl min b.x1,
          (bs.map BBox.y1).foldl min b.y1,
          (bs.map BBox.x2).foldl max b.x2,
          (bs.map BBox.y2).foldl max b.y2⟩

lemma foldl_min_le_init (l : List Int) (a : Int) : l.foldl min a ≤ a := by
  induction l generalizing a with
  | nil => simp
  | cons x xs ih =>
    simp only [List.foldl_cons]
    exact le_trans (ih (min a x)) (min_le_left a x)

lemma foldl_min_le_mem (l : List Int) (a : Int) :
    ∀ x ∈ l, l.foldl min a ≤ x := by
  induction l generalizing a with
  | nil => intro x hx; simp at hx
  | cons y ys ih =>
    intro x hx
    rcases List.mem_cons.mp hx with h | h
    · subst h
      exact le_trans (foldl_min_le_init ys (min a x)) (min_le_right a x)
    · exact ih (min a y) x h

lemma foldl_min_attained (l : List Int) (a : Int) :
    l.foldl min a = a ∨ l.foldl min a ∈ l := by
  induction l generalizing a with
  | nil => left; rfl
  | cons y ys ih =>
    simp only [List.foldl_cons]
    rcases ih (min a y) with h | h
    · rcases min_cases a y with ⟨hm, _⟩ | ⟨hm, _⟩
      · left; rw [h, hm]
      · right; rw [h, hm]; exact List.mem_cons_self y ys
    · right; exact List.mem_cons_of_mem y h

lemma foldl_max_init_le (l : List Int) (a : Int) : a ≤ l.foldl max a := by
  induction l generalizing a with
  | nil => simp
  | cons x xs ih =>
    simp only [List.foldl_cons]
    exact le_trans (le_max_left a x) (ih (max a x))

lemma foldl_max_mem_le (l : List Int) (a : Int) :
    ∀ x ∈ l, x ≤ l.foldl max a := by
  induction l generalizing a with
  | nil => intro x hx; simp at hx
  | cons y ys ih =>
    intro x hx
    rcases List.mem_cons.mp hx with h | h
    · subst h
      exact le_trans (le_max_right a x) (foldl_max_init_le ys (max a x))
    · exact ih (max a y) x h

lemma foldl_max_attained (l : List Int) (a : Int) :
    l.foldl max a = a ∨ l.foldl max a ∈ l := by
  induction l generalizing a with
  | nil => left; rfl
  | cons y ys ih =>
    simp only [List.foldl_cons]
    rcases ih (max a y) with h | h
    · rcases max_cases a y with ⟨hm, _⟩ | ⟨hm, _⟩
      · left; rw [h, hm]
      · right; rw [h, hm]; exact List.mem_cons_self y ys
    · right; exact List.mem_cons_of_mem y h

/-
Compositor (merge_layers). The PIL raster collaborator is modelled as a
free algebra of the operations the compositor performs: canvas allocation,
leaf-layer rasterization (as_PIL), crop, opacity scaling, paste and
alpha_composite. Crop follows PIL semantics for sizes: crop (l,u,r,b) has
size (r-l, b-u); opacity scaling preserves mode and size; paste and
alpha_composite return an image of the base canvas size and mode.
-/

/-- Free algebra of raster images produced by the compositor. -/
inductive Image where
  | new (w h : Int)
  | leaf (mode : String) (w h : Int) (id : Nat)
  | crop (img : Image) (l u r b : Int)
  | applyOpacity (img : Image) (opacity : Int)
  | paste (base : Image) (img : Image) (x y : Int)
  | alphaComposite (base : Image) (over : Image)
deriving DecidableEq, Repr

/-- Pixel format of an image (the PIL mode string). A fresh canvas is RGBA;
crop and opacity scaling preserve the format; paste and alpha_composite
keep the format of the base canvas. -/
def Image.mode : Image → String
  | .new _ _ => "RGBA"
  | .leaf m _ _ _ => m
  | .crop i _ _ _ _ => i.mode
  | .applyOpacity i _ => i.mode
  | .paste b _ _ _ => b.mode
  | .alphaComposite b _ => b.mode

/-- Size of an image, PIL semantics. -/
def Image.size : Image → Int × Int
  | .new w h => (w, h)
  | .leaf _ w h _ => (w, h)
  | .crop _ l u r b => (r - l, b - u)
  | .applyOpacity i _ => i.size
  | .paste b _ _ _ => b.size
  | .alphaComposite b _ => b.size

/-- A layer as seen by merge_layers: either a non-group layer carrying the
record bbox, flags and its own raster, or a group carrying its children. -/
inductive MLayer where
  | leaf (bbox : BBox) (visible : Bool) (opacity : Int) (blend_mode : String)
      (image : Image)
  | group (visible : Bool) (opacity : Int) (blend_mode : String)
      (layers : List MLayer)
deriving Repr

/-- Local visibility flag of a layer (info.flags.visible). -/
def MLayer.visible : MLayer → Bool
  | .leaf _ v _ _ _ => v
  | .group v _ _ _ => v

/-- Opacity of a layer (info.opacity). -/
def MLayer.opacity : MLayer → Int
  | .leaf _ _ o _ _ => o
  | .group _ o _ _ => o

/-- Blend mode id of a layer (info.blend_mode); BlendMode.NORMAL is "norm". -/
def MLayer.blend_mode : MLayer → String
  | .leaf _ _ _ bm _ => bm
  | .group _ _ bm _ => bm

/-- Bounding box of a layer: the literal record bbox for a non-group layer,
combined_bbox of the children for a group (Group.bbox), which can be None. -/
def MLayer.bbox : MLayer → Option BBox
  | .leaf b _ _ _ _ => some b
  | .group _ _ _ ls => combined_bbox (ls.attach.map (fun x => MLayer.bbox x.1))
decreasing_by
  have := List.sizeOf_lt_of_mem x.2
  simp only [MLayer.group.sizeOf_spec]
  omega

/-- Placement step of merge_layers (lines computing x, y and the top/left
crop): offset = layer bbox origin minus canvas bbox origin; when either
component is negative the overhang is cropped from the layer raster and
that component is clamped by adding the overflow back. Bottom/right
overflow is only logged, never cropped. -/
def place_layer (lb bb : BBox) (img : Image) : Image × Int × Int :=
  let x := lb.x1 - bb.x1
  let y := lb.y1 - bb.y1
  let w := img.size.1
  let h := img.size.2
  if x < 0 ∨ y < 0 then
    let x_overflow := -(min x 0)
    let y_overflow := -(min y 0)
    (Image.crop img x_overflow y_overflow w h, x + x_overflow, y + y_overflow)
  else
    (img, x, y)

/-- Blend step of merge_layers: only the normal mode is implemented; with
an RGBA source the layer is pasted onto a fresh transparent canvas which is
alpha-composited over the result, with an RGB source it is pasted directly;
any other blend mode or source format is diagnosed and the canvas is left
unchanged (continue). -/
def blend_step (result layer_image : Image) (bm : String) (x y : Int) :
    Image :=
  if bm = "norm" then
    if layer_image.mode = "RGBA" then
      Image.alphaComposite result
        (Image.paste (Image.new result.size.1 result.size.2) layer_image x y)
    else if layer_image.mode = "RGB" then
      Image.paste result layer_image x y
    else
      result
  else
    result

/-- One iteration of the merge_layers loop body for a single layer: the
three skip checks (zero-size bbox, skip_layer, visibility), then opacity,
placement and blending of the layer raster. The raster (the recursive
merge for a group, as_PIL for a leaf) is passed in as imgE; it is only
looked at after the skip checks, exactly as in the source, where a skipped
layer never has its raster computed (the model is pure, so passing the
unused value is observationally identical). A group whose bbox is None
makes the Python code raise (layer.bbox.width on None), and a group whose
recursive merge yields None makes apply_opacity raise; both are modelled
as errors. -/
def process_step (layer : MLayer) (respect_visibility : Bool)
    (skip_layer : MLayer → Bool) (bb : BBox) (result : Image)
    (imgE : Except String (Option Image)) : Except String Image :=
  match MLayer.bbox layer with
  | none => Except.error "AttributeError: NoneType has no attribute width"
  | some lb =>
    if lb.width = 0 ∧ lb.height = 0 then Except.ok result
    else if skip_layer layer then Except.ok result
    else if !layer.visible && respect_visibility then Except.ok result
    else
      match imgE with
      | Except.error e => Except.error e
      | Except.ok none =>
        Except.error "AttributeError: apply_opacity on None"
      | Except.ok (some img0) =>
        let img1 := Image.applyOpacity img0 layer.opacity
        let placed := place_layer lb bb img1
        Except.ok (blend_step result placed.1 layer.blend_mode
          placed.2.1 placed.2.2)

mutual

/-- merge_layers(layers, respect_visibility, skip_layer, bbox): resolve the
target bbox (combined_bbox when not given), return None when unresolved,
else fold the per-layer step over the layers from last to first on a fresh
transparent canvas. Python exceptions are modelled as Except.error. -/
def merge_layers (layers : List MLayer) (respect_visibility : Bool)
    (skip_layer : MLayer → Bool) (bbox : Option BBox) :
    Except String (Option Image) :=
  match (match bbox with
         | none => combined_bbox (layers.map MLayer.bbox)
         | some b => some b) with
  | none => Except.ok none
  | some bb =>
    match merge_loop layers respect_visibility skip_layer bb
        (Image.new bb.width bb.height) with
    | Except.error e => Except.error e
    | Except.ok img => Except.ok (some img)
termination_by (sizeOf layers, 1)

/-- The loop `for layer in reversed(layers)` of merge_layers: the deeper
recursive call handles the later (lower) layers first, then the head layer
is drawn over the accumulated canvas by process_step. -/
def merge_loop (layers : List MLayer) (respect_visibility : Bool)
    (skip_layer : MLayer → Bool) (bb : BBox) (result : Image) :
    Except String Image :=
  match layers with
  | [] => Except.ok result
  | layer :: rest =>
    match merge_loop rest respect_visibility skip_layer bb result with
    | Except.error e => Except.error e
    | Except.ok acc =>
      process_step layer respect_visibility skip_layer bb acc
        (layer_image layer respect_visibility skip_layer)
termination_by (sizeOf layers, 0)

/-- Raster of one layer inside the merge loop: the recursive
merge_layers(layer.layers, respect_visibility, skip_layer) for a group,
the as_PIL raster for any other layer. -/
def layer_image (layer : MLayer) (respect_visibility : Bool)
    (skip_layer : MLayer → Bool) : Except String (Option Image) :=
  match layer with
  | .group _ _ _ ls => merge_layers ls respect_visibility skip_layer none
  | .leaf _ _ _ _ img => Except.ok (some img)
termination_by (sizeOf layer, 0)

end

/-- The complete per-layer step of the merge loop. -/
def process_layer (layer : MLayer) (respect_visibility : Bool)
    (skip_layer : MLayer → Bool) (bb : BBox) (result : Image) :
    Except String Image :=
  process_step layer respect_visibility skip_layer bb result
    (layer_image layer respect_visibility skip_layer)

/-
Tree assembly (PSDImage.__init__: make_layer / fill_group). The nested
decoded description is a LayerDesc; the built tree is a BLayer. In the
Python source, make_layer assigns `child` only for the six known kind
tags; for any other tag it logs and then executes `return child` with
`child` never assigned, raising UnboundLocalError. That exception is
modelled as Except.error, and it propagates out of fill_group.
-/

/-- A record of the nested decoded description handed to tree assembly:
kind tag, layer index, child records (for groups) and clip records. -/
inductive LayerDesc where
  | mk (kind : String) (index : Int) (layers : List LayerDesc)
      (clip_layers : List LayerDesc)
deriving Repr

/-- Kind tag of a record. -/
def LayerDesc.kind : LayerDesc → String
  | .mk k _ _ _ => k

/-- Index of a record. -/
def LayerDesc.index : LayerDesc → Int
  | .mk _ i _ _ => i

/-- Child records of a record (non-empty only for groups). -/
def LayerDesc.layers : LayerDesc → List LayerDesc
  | .mk _ _ ls _ => ls

/-- Clip records attached to a record. -/
def LayerDesc.clip_layers : LayerDesc → List LayerDesc
  | .mk _ _ _ cs => cs

/-- A typed node of the assembled layer tree: kind tag, index, children
(groups only) and the clip layers attached by fill_group. -/
inductive BLayer where
  | mk (kind : String) (index : Int) (layers : List BLayer)
      (clip_layers : List BLayer)
deriving Repr

/-- Replace the clip-layer list of a built node (the repeated
child.clip_layers.append calls of fill_group). -/
def BLayer.withClips : BLayer → List BLayer → BLayer
  | .mk k i ls _, cs => .mk k i ls cs

mutual

/-- make_layer(group, layer): dispatch on the kind tag, building a Group
(recursively filled) or one of the five leaf node kinds; an unknown tag
logs critically and then hits `return child` with child unassigned, an
UnboundLocalError. -/
def make_layer (d : LayerDesc) : Except String BLayer :=
  match d with
  | .mk kind index children _ =>
    if kind = "group" then
      match fill_group children with
      | Except.error e => Except.error e
      | Except.ok built => Except.ok (BLayer.mk "group" index built [])
    else if kind = "adjustment" then
      Except.ok (BLayer.mk "adjustment" index [] [])
    else if kind = "type" then
      Except.ok (BLayer.mk "type" index [] [])
    else if kind = "shape" then
      Except.ok (BLayer.mk "shape" index [] [])
    else if kind = "pixel" then
      Except.ok (BLayer.mk "pixel" index [] [])
    else if kind = "smartobject" then
      Except.ok (BLayer.mk "smartobject" index [] [])
    else
      Except.error "UnboundLocalError: local variable child referenced before assignment"

/-- The clip loop of fill_group: each clip record is built with make_layer
and appended to the owning child, in order; an error aborts assembly. -/
def make_clips (cs : List LayerDesc) : Except String (List BLayer) :=
  match cs with
  | [] => Except.ok []
  | c :: rest =>
    match make_layer c with
    | Except.error e => Except.error e
    | Except.ok b =>
      match make_clips rest with
      | Except.error e => Except.error e
      | Except.ok bs => Except.ok (b :: bs)

/-- fill_group(group, data): for each record in order, build the child,
add it to the group, then build and attach its clip layers. -/
def fill_group (ds : List LayerDesc) : Except String (List BLayer) :=
  match ds with
  | [] => Except.ok []
  | LayerDesc.mk k i ls cs :: rest =>
    match make_layer (LayerDesc.mk k i ls cs) with
    | Except.error e => Except.error e
    | Except.ok child =>
      match make_clips cs with
      | Except.error e => Except.error e
      | Except.ok clips =>
        match fill_group rest with
        | Except.error e => Except.error e
        | Except.ok others => Except.ok (child.withClips clips :: others)

end

/-
Layer visibility (C5): _RawLayer.visible_global and the _RootGroup
overrides. A layer is modelled together with its finite parent chain,
which ends at the synthetic root group.
-/

/-- A layer position in the tree, as the chain of parents up to the
synthetic root group: the root itself, or a layer with its local
visibility flag and its parent. -/
inductive PLayer where
  | rootGroup
  | layer (parent : PLayer) (visible : Bool)
deriving DecidableEq, Repr

/-- Local visibility: the flags bit for a real layer; _RootGroup.visible
is overridden to True. -/
def PLayer.visible : PLayer → Bool
  | .rootGroup => true
  | .layer _ v => v

/-- Parent of a layer; the root is its own parent here only to make the
function total, the source never asks for the parent of the root. -/
def PLayer.parent : PLayer → PLayer
  | .rootGroup => .rootGroup
  | .layer p _ => p

/-- visible_global: self.visible and self.parent.visible_global for a real
layer; _RootGroup.visible_global is overridden to True, terminating the
recursion at the top of the parent chain. -/
def PLayer.visible_global : PLayer → Bool
  | .rootGroup => true
  | .layer p v => v && p.visible_global

/-
ShapeLayer (bbox and anchors). Decoded path points carry fractional
coordinates as rationals; Python int() truncates toward zero. The anchor
record stores the y fraction first (anchor[0] scales with the document
height, anchor[1] with the width).
-/

/-- Python int(): truncation toward zero on a rational, the floor for a
nonnegative value and the ceiling for a negative one. -/
def pyInt (q : Rat) : Int := if 0 ≤ q then ⌊q⌋ else ⌈q⌉

/-- A point of a vector-mask path: optional selector code and the
fractional anchor coordinates (anchor[0] is the y fraction, anchor[1] the
x fraction). -/
structure PathPoint where
  selector : Option Int
  anchor_y : Rat
  anchor_x : Rat
deriving DecidableEq, Repr

/-- The data a ShapeLayer reads: the literal record bbox, the two
vector-mask tagged blocks (setting 1 probed before setting 2) and the
document header size. -/
structure ShapeData where
  left : Int
  top : Int
  right : Int
  bottom : Int
  vector_mask_setting1 : Option (List PathPoint)
  vector_mask_setting2 : Option (List PathPoint)
  doc_width : Int
  doc_height : Int
deriving DecidableEq, Repr

/-- ShapeLayer._is_sizeless: the literal record bbox has zero width or
zero height. -/
def ShapeData.is_sizeless (s : ShapeData) : Bool :=
  let bbox : BBox := ⟨s.left, s.top, s.right, s.bottom⟩
  bbox.width == 0 || bbox.height == 0

/-- ShapeLayer.anchors: None when neither vector-mask block is present;
otherwise the path points whose selector code is one of 1, 2, 4, 5, each
mapped to (int(anchor[1] * width), int(anchor[0] * height)). -/
def ShapeData.anchors (s : ShapeData) : Option (List (Int × Int)) :=
  match (match s.vector_mask_setting1 with
         | some b => some b
         | none => s.vector_mask_setting2) with
  | none => none
  | some path =>
    some (path.filterMap (fun p =>
      match p.selector with
      | some sel =>
        if sel = 1 ∨ sel = 2 ∨ sel = 4 ∨ sel = 5 then
          some (pyInt (p.anchor_x * (s.doc_width : Rat)),
                pyInt (p.anchor_y * (s.doc_height : Rat)))
        else none
      | none => none))

/-- ShapeLayer.bbox: the literal record bbox when it is not sizeless, else
the min/max envelope of the anchors, else BBox(0,0,0,0) when there is no
vector mask or fewer than two anchors. -/
def ShapeData.bbox (s : ShapeData) : BBox :=
  if !s.is_sizeless then ⟨s.left, s.top, s.right, s.bottom⟩
  else
    match s.anchors with
    | none => ⟨0, 0, 0, 0⟩
    | some anchors =>
      if anchors.length < 2 then ⟨0, 0, 0, 0⟩
      else
        match anchors with
        | [] => ⟨0, 0, 0, 0⟩
        | a :: rest =>
          ⟨(rest.map Prod.fst).foldl min a.1,
           (rest.map Prod.snd).foldl min a.2,
           (rest.map Prod.fst).foldl max a.1,
           (rest.map Prod.snd).foldl max a.2⟩

/-
SmartObjectLayer. The placed-layer block is a decoded key/value sequence;
dict lookups with [] raise KeyError on a missing key while .get returns
None; attribute access on None raises AttributeError. Exceptions are
modelled as Except.error. The embedded registry maps unique ids to
embedded assets (abstracted as naturals).
-/

/-- Keys of a placed-layer block (PlacedLayerProperty): ID is Idnt,
TRANSFORM is Trnf, SIZE is Sz00; other keys are ignored by the source. -/
inductive PlacedLayerProperty where
  | ID
  | TRANSFORM
  | SIZE
  | other (n : Nat)
deriving DecidableEq, Repr

/-- Keys of the size record (SzProperty.WIDTH and SzProperty.HEIGHT). -/
inductive SzProperty where
  | WIDTH
  | HEIGHT
  | otherSz (n : Nat)
deriving DecidableEq, Repr

/-- A decoded value inside a placed-layer block: a scalar exposing .value,
a descriptor exposing .items as a list, or a descriptor exposing .items as
a key/value sequence. -/
inductive PValue where
  | scalar (value : Int)
  | descriptor (items : List PValue)
  | keyed (items : List (SzProperty × PValue))
deriving Repr

/-- Size namedtuple (width, height). -/
structure Size where
  width : Int
  height : Int
deriving DecidableEq, Repr

/-- The tagged blocks a SmartObjectLayer probes plus the embedded registry
of the document. -/
structure SOLayer where
  smart_object_placed_layer_data : Option (List (PlacedLayerProperty × PValue))
  placed_layer_data : Option (List (PlacedLayerProperty × PValue))
  placed_layer_obsolete1 : Option (List (PlacedLayerProperty × PValue))
  placed_layer_obsolete2 : Option (List (PlacedLayerProperty × PValue))
  embedded : List (Int × Nat)
deriving Repr

/-- First value bound to a key in a decoded block (dict access). -/
def pbGet (blk : List (PlacedLayerProperty × PValue))
    (k : PlacedLayerProperty) : Option PValue :=
  (blk.find? (fun kv => kv.1 = k)).map Prod.snd

/-- First value bound to a key in a size record (dict access). -/
def szGet (items : List (SzProperty × PValue)) (k : SzProperty) :
    Option PValue :=
  (items.find? (fun kv => kv.1 = k)).map Prod.snd

/-- SmartObjectLayer._placed_layer_block: probe the modern block first and
then the three legacy blocks, in this fixed order; None when none of the
four is present. -/
def SOLayer.placed_layer_block (s : SOLayer) :
    Option (List (PlacedLayerProperty × PValue)) :=
  match s.smart_object_placed_layer_data with
  | some b => some b
  | none =>
    match s.placed_layer_data with
    | some b => some b
    | none =>
      match s.placed_layer_obsolete1 with
      | some b => some b
      | none => s.placed_layer_obsolete2

/-- The _placed field set in SmartObjectLayer.__init__: dict(block) when a
block was found and it is truthy (a present but empty block stays None). -/
def SOLayer.placed (s : SOLayer) :
    Option (List (PlacedLayerProperty × PValue)) :=
  match s.placed_layer_block with
  | none => none
  | some b => if b.isEmpty then none else some b

/-- SmartObjectLayer.unique_id: None when _placed is None; otherwise
_placed.get(ID).value, which raises AttributeError when the ID key is
absent (.value on None). -/
def SOLayer.unique_id (s : SOLayer) : Except String (Option Int) :=
  match s.placed with
  | none => Except.ok none
  | some blk =>
    match pbGet blk PlacedLayerProperty.ID with
    | none => Except.error "AttributeError: NoneType has no attribute value"
    | some (PValue.scalar n) => Except.ok (some n)
    | some _ => Except.error "AttributeError: no attribute value"

/-- SmartObjectLayer.transform_bbox: None when the probe finds no block
(or a falsy one); then PlacedLayerData reads block[TRANSFORM].items,
raising KeyError when the TRANSFORM key is absent; an empty items list
gives None; otherwise the bbox is built from items 0, 1, 4 and 5. -/
def SOLayer.transform_bbox (s : SOLayer) : Except String (Option BBox) :=
  match s.placed_layer_block with
  | none => Except.ok none
  | some blk =>
    if blk.isEmpty then Except.ok none
    else
      match pbGet blk PlacedLayerProperty.TRANSFORM with
      | none => Except.error "KeyError: Trnf"
      | some (PValue.descriptor items) =>
        if items.isEmpty then Except.ok none
        else
          match items.get? 0, items.get? 1, items.get? 4, items.get? 5 with
          | some (PValue.scalar a), some (PValue.scalar b),
            some (PValue.scalar c), some (PValue.scalar d) =>
            Except.ok (some ⟨a, b, c, d⟩)
          | _, _, _, _ => Except.error "IndexError: transform"
      | some _ => Except.error "AttributeError: no attribute items"

/-- SmartObjectLayer.placed_layer_size: None when the probe finds no block
(or a falsy one); then PlacedLayerData reads dict(block[SIZE].items),
raising KeyError when the SIZE key is absent; an empty record gives None;
otherwise Size(record[WIDTH].value, record[HEIGHT].value). -/
def SOLayer.placed_layer_size (s : SOLayer) : Except String (Option Size) :=
  match s.placed_layer_block with
  | none => Except.ok none
  | some blk =>
    if blk.isEmpty then Except.ok none
    else
      match pbGet blk PlacedLayerProperty.SIZE with
      | none => Except.error "KeyError: Sz"
      | some (PValue.keyed items) =>
        if items.isEmpty then Except.ok none
        else
          match szGet items SzProperty.WIDTH, szGet items SzProperty.HEIGHT with
          | some (PValue.scalar w), some (PValue.scalar h) =>
            Except.ok (some ⟨w, h⟩)
          | _, _ => Except.error "KeyError: size key"
      | some _ => Except.error "AttributeError: no attribute items"

/-- SmartObjectLayer.linked_data: embedded.get(unique_id) when unique_id
is truthy, else None; an exception from unique_id propagates. The id 0 is
falsy in Python, so it skips the registry lookup. -/
def SOLayer.linked_data (s : SOLayer) : Except String (Option Nat) :=
  match s.unique_id with
  | Except.error e => Except.error e
  | Except.ok none => Except.ok none
  | Except.ok (some uid) =>
    if uid = 0 then Except.ok none
    else Except.ok ((s.embedded.find? (fun kv => kv.1 = uid)).map Prod.snd)

/-
Mask existence (_RawLayer.has_mask / _RawLayer.mask). The source checks
`self._index and self._info.mask_data`, so the layer index participates
through Python truthiness: None and 0 are both falsy.
-/

/-- Decoded mask sub-record of a layer record (contents abstracted). -/
structure MaskData where
  data_id : Nat
deriving DecidableEq, Repr

/-- The fields of a layer that has_mask reads: the layer index (None for
the synthetic root) and the optional mask sub-record. -/
structure RawLayerRec where
  index : Option Int
  mask_data : Option MaskData
deriving DecidableEq, Repr

/-- Python truthiness of the layer index: None is falsy and so is 0. -/
def pyTruthyIndex : Option Int → Bool
  | none => false
  | some i => i != 0

/-- _RawLayer.has_mask: True if self._index and self._info.mask_data else
False. -/
def RawLayerRec.has_mask (l : RawLayerRec) : Bool :=
  pyTruthyIndex l.index && l.mask_data.isSome

/-- _RawLayer.mask: Mask(self) when has_mask(), else None; the Mask object
wraps the mask sub-record. -/
def RawLayerRec.mask (l : RawLayerRec) : Option MaskData :=
  if l.has_mask then l.mask_data else none

/-
TypeLayer.style_spans. The full text is a character list; the font set is
a list of font records (abstracted as naturals); each style run carries
its StyleSheetData, of which the source reads the optional Font index.
-/

/-- The StyleSheetData of one style run: the optional Font index plus the
rest of the sheet, abstracted by an id. -/
structure StyleSheet where
  font : Option Nat
  data_id : Nat
deriving DecidableEq, Repr

/-- One emitted span record: the run sheet it was copied from, the Text
slice written into the copy and the resolved Font entry. -/
structure Span where
  sheet : StyleSheet
  text : List Char
  font : Nat
deriving DecidableEq, Repr

/-- The loop of style_spans over zip(runarray, runlength), carrying the
running character offset; fontset indexing raises IndexError when the
Font index (default 0) is out of range. -/
def style_spans_go (text : List Char) (fontset : List Nat)
    (runs : List (StyleSheet × Nat)) (start : Nat) :
    Except String (List Span) :=
  match runs with
  | [] => Except.ok []
  | (run, size) :: rest =>
    let runtext := (text.drop start).take size
    match fontset.get? (run.font.getD 0) with
    | none => Except.error "IndexError: fontset"
    | some f =>
      match style_spans_go text fontset rest (start + size) with
      | Except.error e => Except.error e
      | Except.ok spans => Except.ok (⟨run, runtext, f⟩ :: spans)

/-- TypeLayer.style_spans: walk the style runs in order from offset 0. -/
def style_spans (text : List Char) (fontset : List Nat)
    (runarray : List StyleSheet) (runlength : List Nat) :
    Except String (List Span) :=
  style_spans_go text fontset (runarray.zip runlength) 0

/-
Helper lemmas about the merge loop.
-/

lemma merge_loop_nil (rv : Bool) (skip : MLayer → Bool) (bb : BBox) (st : Image) :
    merge_loop [] rv skip bb st = Except.ok st := by
  rw [merge_loop]

lemma merge_loop_cons (l : MLayer) (rest : List MLayer) (rv : Bool)
    (skip : MLayer → Bool) (bb : BBox) (st : Image) :
    merge_loop (l :: rest) rv skip bb st =
      match merge_loop rest rv skip bb st with
      | Except.error e => Except.error e
      | Except.ok acc => process_layer l rv skip bb acc := by
  rw [merge_loop]
  rfl

lemma merge_layers_some (layers : List MLayer) (rv : Bool)
    (skip : MLayer → Bool) (bb : BBox) :
    merge_layers layers rv skip (some bb) =
      match merge_loop layers rv skip bb (Image.new bb.width bb.height) with
      | Except.error e => Except.error e
      | Except.ok img => Except.ok (some img) := by
  rw [merge_layers]

lemma process_step_zero_size (layer : MLayer) (rv : Bool) (skip : MLayer → Bool)
    (bb : BBox) (st : Image) (imgE : Except String (Option Image)) (lb : BBox)
    (hbb : layer.bbox = some lb) (hw : lb.width = 0) (hh : lb.height = 0) :
    process_step layer rv skip bb st imgE = Except.ok st := by
  unfold process_step
  rw [hbb]
  simp [hw, hh]

lemma merge_loop_append_skippable (l : MLayer) (rv : Bool) (skip : MLayer → Bool)
    (bb : BBox) (hl : ∀ st, process_layer l rv skip bb st = Except.ok st) :
    ∀ (as bs : List MLayer) (st : Image),
      merge_loop (as ++ l :: bs) rv skip bb st = merge_loop (as ++ bs) rv skip bb st := by
  intro as
  induction as with
  | nil =>
    intro bs st
    rw [List.nil_append, List.nil_append, merge_loop_cons]
    cases h : merge_loop bs rv skip bb st with
    | error e => rfl
    | ok acc => exact hl acc
  | cons a as ih =>
    intro bs st
    rw [List.cons_append, List.cons_append, merge_loop_cons, merge_loop_cons, ih]

lemma merge_layers_insert_skippable (l : MLayer) (rv : Bool) (skip : MLayer → Bool)
    (bb : BBox) (hl : ∀ st, process_layer l rv skip bb st = Except.ok st)
    (as bs : List MLayer) :
    merge_layers (as ++ l :: bs) rv skip (some bb) =
      merge_layers (as ++ bs) rv skip (some bb) := by
  rw [merge_layers_some, merge_layers_some, merge_loop_append_skippable l rv skip bb hl]

/-- C1: the claim says a record with an unknown kind tag is diagnosed and
skipped, with assembly of the remaining records completing normally. On
the code this fails: make_layer reaches `return child` with `child` never
assigned, so assembly of any description containing an unknown kind tag
aborts with an UnboundLocalError, while the same description without the
unknown record assembles fine. -/
theorem C1_unknown_kind_aborts_assembly :
    make_layer (LayerDesc.mk "foo" 1 [] []) =
      Except.error "UnboundLocalError: local variable child referenced before assignment" ∧
    fill_group [LayerDesc.mk "pixel" 0 [] [],
                LayerDesc.mk "foo" 1 [] [],
                LayerDesc.mk "pixel" 2 [] []] =
      Except.error "UnboundLocalError: local variable child referenced before assignment" ∧
    fill_group [LayerDesc.mk "pixel" 0 [] [],
                LayerDesc.mk "pixel" 2 [] []] =
      Except.ok [BLayer.mk "pixel" 0 [] [], BLayer.mk "pixel" 2 [] []] := by
  refine ⟨?_, ?_, ?_⟩ <;>
    simp [make_layer, fill_group, make_clips, BLayer.withClips]

/-- C2 counterexample: a layer with zero width but positive height (bbox
(0,0,0,5)) is claimed to be skipped by merge, contributing nothing; on the
code the zero-size check requires width AND height to both be zero, so the
layer is processed and the composite differs from the composite without
it. -/
theorem C2_zero_width_not_skipped :
    merge_layers [MLayer.leaf ⟨0,0,0,5⟩ true 255 "norm" (Image.leaf "RGB" 0 5 0)]
        true (fun _ => false) (some ⟨0,0,10,10⟩) ≠
      merge_layers [] true (fun _ => false) (some ⟨0,0,10,10⟩) := by
  have h1 : merge_layers [MLayer.leaf ⟨0,0,0,5⟩ true 255 "norm" (Image.leaf "RGB" 0 5 0)]
      true (fun _ => false) (some ⟨0,0,10,10⟩) =
      Except.ok (some (Image.paste (Image.new 10 10)
        (Image.applyOpacity (Image.leaf "RGB" 0 5 0) 255) 0 0)) := by
    simp [merge_layers, merge_loop, layer_image, process_layer, process_step,
      MLayer.bbox, BBox.width, BBox.height, place_layer, blend_step, Image.mode,
      Image.size, MLayer.visible, MLayer.opacity, MLayer.blend_mode]
  have h2 : merge_layers ([] : List MLayer) true (fun _ => false) (some ⟨0,0,10,10⟩) =
      Except.ok (some (Image.new 10 10)) := by
    simp [merge_layers, merge_loop, BBox.width, BBox.height]
  rw [h1, h2]
  simp

/-- C2 amended: the compositor skips a layer (it contributes nothing, and
merging a list with it equals merging the list without it) exactly under
the source check, namely when the bbox has zero width AND zero height;
a layer with only one zero dimension is processed. -/
theorem C2_skip_zero_size (layer : MLayer) (lb : BBox) (hbb : layer.bbox = some lb)
    (hw : lb.width = 0) (hh : lb.height = 0) :
    (∀ rv skip bb st, process_layer layer rv skip bb st = Except.ok st) ∧
    (∀ as bs rv skip bb,
      merge_layers (as ++ layer :: bs) rv skip (some bb) =
        merge_layers (as ++ bs) rv skip (some bb)) := by
  have hstep : ∀ rv skip bb st, process_layer layer rv skip bb st = Except.ok st := by
    intro rv skip bb st
    unfold process_layer
    exact process_step_zero_size layer rv skip bb st _ lb hbb hw hh
  exact ⟨hstep, fun as bs rv skip bb =>
    merge_layers_insert_skippable layer rv skip bb (hstep rv skip bb) as bs⟩

/-- Witness for C2_skip_zero_size at a concrete point-sized layer. -/
theorem C2_skip_zero_size_witness :
    (∀ rv skip bb st,
      process_layer (MLayer.leaf ⟨3,4,3,4⟩ true 255 "norm" (Image.leaf "RGB" 0 0 0))
        rv skip bb st = Except.ok st) ∧
    (∀ as bs rv skip bb,
      merge_layers (as ++ MLayer.leaf ⟨3,4,3,4⟩ true 255 "norm" (Image.leaf "RGB" 0 0 0) :: bs)
          rv skip (some bb) =
        merge_layers (as ++ bs) rv skip (some bb)) :=
  C2_skip_zero_size _ ⟨3,4,3,4⟩ (by simp [MLayer.bbox]) (by decide) (by decide)

/-- C5: for every layer, visible_global equals the local visibility ANDed
with the parent visible_global, and the synthetic root group is always
globally visible, terminating the recursion up the finite parent chain. -/
theorem C5_visible_global_recursion :
    (∀ (p : PLayer) (v : Bool),
      (PLayer.layer p v).visible_global =
        ((PLayer.layer p v).visible && ((PLayer.layer p v).parent).visible_global)) ∧
    PLayer.visible_global PLayer.rootGroup = true :=
  ⟨fun _ _ => rfl, rfl⟩

/-- C9: the claim says a non-root layer with a mask sub-record always has
a non-null mask. On the code, has_mask tests the Python truthiness of the
layer index, so the non-root layer at index 0 with a mask sub-record
present has has_mask False and mask None, while the same record at index 1
has a mask; the root (index None) has none, as claimed. -/
theorem C9_mask_truthy_index :
    (RawLayerRec.mk (some 0) (some ⟨0⟩)).has_mask = false ∧
    (RawLayerRec.mk (some 0) (some ⟨0⟩)).mask = none ∧
    (RawLayerRec.mk (some 1) (some ⟨0⟩)).has_mask = true ∧
    (RawLayerRec.mk (some 1) (some ⟨0⟩)).mask = some ⟨0⟩ ∧
    (RawLayerRec.mk none (some ⟨0⟩)).has_mask = false := by
  decide

/-- C3: combined_bbox filters to bboxes that are non-null with positive
width and height; it returns None exactly when no bbox survives (so the
empty list gives None), otherwise the minimal enclosing box whose x1/y1
are minima and x2/y2 maxima over the survivors (each bound attained); a
singleton gives back its bbox exactly when that bbox is positive. -/
theorem C3_combined_bbox_spec (layers : List (Option BBox)) :
    combined_bbox ([] : List (Option BBox)) = none ∧
    (combined_bbox layers = none ↔ surviving layers = []) ∧
    (∀ r, combined_bbox layers = some r →
      (∀ b ∈ surviving layers,
        r.x1 ≤ b.x1 ∧ r.y1 ≤ b.y1 ∧ b.x2 ≤ r.x2 ∧ b.y2 ≤ r.y2) ∧
      (∃ b ∈ surviving layers, r.x1 = b.x1) ∧
      (∃ b ∈ surviving layers, r.y1 = b.y1) ∧
      (∃ b ∈ surviving layers, r.x2 = b.x2) ∧
      (∃ b ∈ surviving layers, r.y2 = b.y2)) ∧
    (∀ b : BBox, (combined_bbox [some b] = some b ↔ 0 < b.width ∧ 0 < b.height)) := by
  refine ⟨rfl, ?_, ?_, ?_⟩
  · cases hs : surviving layers with
    | nil => simp [combined_bbox, hs]
    | cons b bs => simp [combined_bbox, hs]
  · intro r hr
    cases hs : surviving layers with
    | nil => rw [combined_bbox, hs] at hr; exact absurd hr (by simp)
    | cons b bs =>
      rw [combined_bbox, hs] at hr
      have hr' : r = ⟨(bs.map BBox.x1).foldl min b.x1,
                      (bs.map BBox.y1).foldl min b.y1,
                      (bs.map BBox.x2).foldl max b.x2,
                      (bs.map BBox.y2).foldl max b.y2⟩ := by
        cases hr; rfl
      subst hr'
      refine ⟨?_, ?_, ?_, ?_, ?_⟩
      · intro b' hb'
        rcases List.mem_cons.mp hb' with h | h
        · subst h
          exact ⟨foldl_min_le_init _ _, foldl_min_le_init _ _,
                 foldl_max_init_le _ _, foldl_max_init_le _ _⟩
        · exact ⟨foldl_min_le_mem _ _ _ (List.mem_map_of_mem BBox.x1 h),
                 foldl_min_le_mem _ _ _ (List.mem_map_of_mem BBox.y1 h),
                 foldl_max_mem_le _ _ _ (List.mem_map_of_mem BBox.x2 h),
                 foldl_max_mem_le _ _ _ (List.mem_map_of_mem BBox.y2 h)⟩
      · rcases foldl_min_attained (bs.map BBox.x1) b.x1 with h | h
        · exact ⟨b, List.mem_cons_self b bs, h⟩
        · rcases List.mem_map.mp h with ⟨b'', hmem, heq⟩
          exact ⟨b'', List.mem_cons_of_mem b hmem, heq.symm⟩
      · rcases foldl_min_attained (bs.map BBox.y1) b.y1 with h | h
        · exact ⟨b, List.mem_cons_self b bs, h⟩
        · rcases List.mem_map.mp h with ⟨b'', hmem, heq⟩
          exact ⟨b'', List.mem_cons_of_mem b hmem, heq.symm⟩
      · rcases foldl_max_attained (bs.map BBox.x2) b.x2 with h | h
        · exact ⟨b, List.mem_cons_self b bs, h⟩
        · rcases List.mem_map.mp h with ⟨b'', hmem, heq⟩
          exact ⟨b'', List.mem_cons_of_mem b hmem, heq.symm⟩
      · rcases foldl_max_attained (bs.map BBox.y2) b.y2 with h | h
        · exact ⟨b, List.mem_cons_self b bs, h⟩
        · rcases List.mem_map.mp h with ⟨b'', hmem, heq⟩
          exact ⟨b'', List.mem_cons_of_mem b hmem, heq.symm⟩
  · intro b
    by_cases hpos : 0 < b.width ∧ 0 < b.height
    · simp [combined_bbox, surviving, hpos]
    · simp [combined_bbox, surviving, hpos]

/-- Witness for C3_combined_bbox_spec on a concrete two-layer list. -/
theorem C3_combined_bbox_witness :
    (∀ b ∈ surviving [some (BBox.mk 0 0 2 3), some (BBox.mk 1 1 5 2)],
      (BBox.mk 0 0 5 3).x1 ≤ b.x1 ∧ (BBox.mk 0 0 5 3).y1 ≤ b.y1 ∧
      b.x2 ≤ (BBox.mk 0 0 5 3).x2 ∧ b.y2 ≤ (BBox.mk 0 0 5 3).y2) ∧
    (∃ b ∈ surviving [some (BBox.mk 0 0 2 3), some (BBox.mk 1 1 5 2)],
      (BBox.mk 0 0 5 3).x1 = b.x1) ∧
    (∃ b ∈ surviving [some (BBox.mk 0 0 2 3), some (BBox.mk 1 1 5 2)],
      (BBox.mk 0 0 5 3).y1 = b.y1) ∧
    (∃ b ∈ surviving [some (BBox.mk 0 0 2 3), some (BBox.mk 1 1 5 2)],
      (BBox.mk 0 0 5 3).x2 = b.x2) ∧
    (∃ b ∈ surviving [some (BBox.mk 0 0 2 3), some (BBox.mk 1 1 5 2)],
      (BBox.mk 0 0 5 3).y2 = b.y2) :=
  (C3_combined_bbox_spec [some (BBox.mk 0 0 2 3), some (BBox.mk 1 1 5 2)]).2.2.1
    (BBox.mk 0 0 5 3) (by decide)

/-- C4: the placement offset components are clamped to zero; when a
component is negative the top/left overhang is cropped away (the crop box
reaches the full width and height on the right and bottom, which are never
cropped), and with no negative component the raster is left uncropped; the
spec example composites a layer at bbox (-5,-5,5,5) on canvas (0,0,10,10)
with the 5-pixel overhang cropped and the rest placed at the origin. -/
theorem C4_top_left_crop (lb bb : BBox) (img : Image) :
    ((place_layer lb bb img).2.1 = max (lb.x1 - bb.x1) 0 ∧
     (place_layer lb bb img).2.2 = max (lb.y1 - bb.y1) 0) ∧
    (lb.x1 - bb.x1 < 0 ∨ lb.y1 - bb.y1 < 0 →
      (place_layer lb bb img).1 =
        Image.crop img (max (bb.x1 - lb.x1) 0) (max (bb.y1 - lb.y1) 0)
          img.size.1 img.size.2) ∧
    (¬(lb.x1 - bb.x1 < 0 ∨ lb.y1 - bb.y1 < 0) →
      (place_layer lb bb img).1 = img) ∧
    merge_layers [MLayer.leaf ⟨-5,-5,5,5⟩ true 255 "norm" (Image.leaf "RGBA" 10 10 0)]
        true (fun _ => false) (some ⟨0,0,10,10⟩) =
      Except.ok (some (Image.alphaComposite (Image.new 10 10)
        (Image.paste (Image.new 10 10)
          (Image.crop (Image.applyOpacity (Image.leaf "RGBA" 10 10 0) 255) 5 5 10 10)
          0 0))) := by
  refine ⟨⟨?_, ?_⟩, ?_, ?_, ?_⟩
  · by_cases h : lb.x1 - bb.x1 < 0 ∨ lb.y1 - bb.y1 < 0
    · simp only [place_layer, if_pos h]
      omega
    · simp only [place_layer, if_neg h]
      omega
  · by_cases h : lb.x1 - bb.x1 < 0 ∨ lb.y1 - bb.y1 < 0
    · simp only [place_layer, if_pos h]
      omega
    · simp only [place_layer, if_neg h]
      omega
  · intro h
    simp only [place_layer, if_pos h]
    congr 1 <;> omega
  · intro h
    simp only [place_layer, if_neg h]
  · simp [merge_layers, merge_loop, layer_image, process_layer, process_step,
      MLayer.bbox, BBox.width, BBox.height, place_layer, blend_step, Image.mode,
      Image.size, MLayer.visible, MLayer.opacity, MLayer.blend_mode]

/-- Witness for C4_top_left_crop at the spec example. -/
theorem C4_top_left_crop_witness :
    (place_layer ⟨-5,-5,5,5⟩ ⟨0,0,10,10⟩ (Image.leaf "RGBA" 10 10 0)).1 =
      Image.crop (Image.leaf "RGBA" 10 10 0) (max ((0:Int) - (-5)) 0)
        (max ((0:Int) - (-5)) 0) (Image.leaf "RGBA" 10 10 0).size.1
        (Image.leaf "RGBA" 10 10 0).size.2 :=
  (C4_top_left_crop ⟨-5,-5,5,5⟩ ⟨0,0,10,10⟩ (Image.leaf "RGBA" 10 10 0)).2.1
    (by decide)

/-- C6: for every shape layer whose literal record bbox is degenerate, the
bbox is the envelope (min/max of x and of y) of the anchors extracted from
the vector-mask path; with no vector mask, or fewer than two anchors, the
bbox is (0,0,0,0); on the spec example the anchors, computed from on-curve
path points with fractional coordinates scaled by the document size and
truncated, are [(0,0),(10,0),(10,10),(0,10)] and the bbox is (0,0,10,10). -/
theorem C6_shape_bbox_envelope :
    (∀ s : ShapeData, s.is_sizeless = true →
      (s.vector_mask_setting1 = none → s.vector_mask_setting2 = none →
        s.bbox = ⟨0, 0, 0, 0⟩) ∧
      (∀ as, s.anchors = some as → as.length < 2 → s.bbox = ⟨0, 0, 0, 0⟩) ∧
      (∀ as, s.anchors = some as → 2 ≤ as.length →
        (∀ p ∈ as, s.bbox.x1 ≤ p.1 ∧ s.bbox.y1 ≤ p.2 ∧
          p.1 ≤ s.bbox.x2 ∧ p.2 ≤ s.bbox.y2) ∧
        (∃ p ∈ as, s.bbox.x1 = p.1) ∧ (∃ p ∈ as, s.bbox.y1 = p.2) ∧
        (∃ p ∈ as, s.bbox.x2 = p.1) ∧ (∃ p ∈ as, s.bbox.y2 = p.2))) ∧
    ShapeData.anchors ⟨0, 0, 0, 0,
        some [⟨some 1, 0, 0⟩, ⟨some 1, 0, 1/10⟩, ⟨some 1, 1/10, 1/10⟩,
              ⟨some 1, 1/10, 0⟩], none, 100, 100⟩ =
      some [(0, 0), (10, 0), (10, 10), (0, 10)] ∧
    ShapeData.bbox ⟨0, 0, 0, 0,
        some [⟨some 1, 0, 0⟩, ⟨some 1, 0, 1/10⟩, ⟨some 1, 1/10, 1/10⟩,
              ⟨some 1, 1/10, 0⟩], none, 100, 100⟩ = ⟨0, 0, 10, 10⟩ := by
  refine ⟨?_, ?_, ?_⟩
  · intro s hs
    refine ⟨?_, ?_, ?_⟩
    · intro h1 h2
      have ha : s.anchors = none := by
        simp [ShapeData.anchors, h1, h2]
      simp [ShapeData.bbox, hs, ha]
    · intro as ha hlen
      simp [ShapeData.bbox, hs, ha, hlen]
    · intro as ha hlen
      have hnot : ¬(as.length < 2) := by omega
      cases as with
      | nil => simp at hlen
      | cons a rest =>
        have hbbox : s.bbox =
            ⟨(rest.map Prod.fst).foldl min a.1,
             (rest.map Prod.snd).foldl min a.2,
             (rest.map Prod.fst).foldl max a.1,
             (rest.map Prod.snd).foldl max a.2⟩ := by
          simp only [ShapeData.bbox, hs, ha, Bool.not_true, Bool.false_eq_true,
            if_false, if_neg hnot]
        rw [hbbox]
        refine ⟨?_, ?_, ?_, ?_, ?_⟩
        · intro p hp
          rcases List.mem_cons.mp hp with h | h
          · subst h
            exact ⟨foldl_min_le_init _ _, foldl_min_le_init _ _,
                   foldl_max_init_le _ _, foldl_max_init_le _ _⟩
          · exact ⟨foldl_min_le_mem _ _ _ (List.mem_map_of_mem Prod.fst h),
                   foldl_min_le_mem _ _ _ (List.mem_map_of_mem Prod.snd h),
                   foldl_max_mem_le _ _ _ (List.mem_map_of_mem Prod.fst h),
                   foldl_max_mem_le _ _ _ (List.mem_map_of_mem Prod.snd h)⟩
        · rcases foldl_min_attained (rest.map Prod.fst) a.1 with h | h
          · exact ⟨a, List.mem_cons_self a rest, h⟩
          · rcases List.mem_map.mp h with ⟨p, hmem, heq⟩
            exact ⟨p, List.mem_cons_of_mem a hmem, heq.symm⟩
        · rcases foldl_min_attained (rest.map Prod.snd) a.2 with h | h
          · exact ⟨a, List.mem_cons_self a rest, h⟩
          · rcases List.mem_map.mp h with ⟨p, hmem, heq⟩
            exact ⟨p, List.mem_cons_of_mem a hmem, heq.symm⟩
        · rcases foldl_max_attained (rest.map Prod.fst) a.1 with h | h
          · exact ⟨a, List.mem_cons_self a rest, h⟩
          · rcases List.mem_map.mp h with ⟨p, hmem, heq⟩
            exact ⟨p, List.mem_cons_of_mem a hmem, heq.symm⟩
        · rcases foldl_max_attained (rest.map Prod.snd) a.2 with h | h
          · exact ⟨a, List.mem_cons_self a rest, h⟩
          · rcases List.mem_map.mp h with ⟨p, hmem, heq⟩
            exact ⟨p, List.mem_cons_of_mem a hmem, heq.symm⟩
  · norm_num [ShapeData.anchors, pyInt, List.filterMap_cons, List.filterMap_nil]
  · have ha : ShapeData.anchors ⟨0, 0, 0, 0,
        some [⟨some 1, 0, 0⟩, ⟨some 1, 0, 1/10⟩, ⟨some 1, 1/10, 1/10⟩,
              ⟨some 1, 1/10, 0⟩], none, 100, 100⟩ =
        some [(0, 0), (10, 0), (10, 10), (0, 10)] := by
      norm_num [ShapeData.anchors, pyInt, List.filterMap_cons, List.filterMap_nil]
    unfold ShapeData.bbox
    rw [ha]
    decide

/-- Witness for C6_shape_bbox_envelope at the spec example shape. -/
theorem C6_shape_bbox_envelope_witness :
    (∀ p ∈ [((0:Int), (0:Int)), (10, 0), (10, 10), (0, 10)],
      (ShapeData.bbox ⟨0, 0, 0, 0,
          some [⟨some 1, 0, 0⟩, ⟨some 1, 0, 1/10⟩, ⟨some 1, 1/10, 1/10⟩,
                ⟨some 1, 1/10, 0⟩], none, 100, 100⟩).x1 ≤ p.1 ∧
      (ShapeData.bbox ⟨0, 0, 0, 0,
          some [⟨some 1, 0, 0⟩, ⟨some 1, 0, 1/10⟩, ⟨some 1, 1/10, 1/10⟩,
                ⟨some 1, 1/10, 0⟩], none, 100, 100⟩).y1 ≤ p.2 ∧
      p.1 ≤ (ShapeData.bbox ⟨0, 0, 0, 0,
          some [⟨some 1, 0, 0⟩, ⟨some 1, 0, 1/10⟩, ⟨some 1, 1/10, 1/10⟩,
                ⟨some 1, 1/10, 0⟩], none, 100, 100⟩).x2 ∧
      p.2 ≤ (ShapeData.bbox ⟨0, 0, 0, 0,
          some [⟨some 1, 0, 0⟩, ⟨some 1, 0, 1/10⟩, ⟨some 1, 1/10, 1/10⟩,
                ⟨some 1, 1/10, 0⟩], none, 100, 100⟩).y2) ∧
    (∃ p ∈ [((0:Int), (0:Int)), (10, 0), (10, 10), (0, 10)],
      (ShapeData.bbox ⟨0, 0, 0, 0,
          some [⟨some 1, 0, 0⟩, ⟨some 1, 0, 1/10⟩, ⟨some 1, 1/10, 1/10⟩,
                ⟨some 1, 1/10, 0⟩], none, 100, 100⟩).x1 = p.1) ∧
    (∃ p ∈ [((0:Int), (0:Int)), (10, 0), (10, 10), (0, 10)],
      (ShapeData.bbox ⟨0, 0, 0, 0,
          some [⟨some 1, 0, 0⟩, ⟨some 1, 0, 1/10⟩, ⟨some 1, 1/10, 1/10⟩,
                ⟨some 1, 1/10, 0⟩], none, 100, 100⟩).y1 = p.2) ∧
    (∃ p ∈ [((0:Int), (0:Int)), (10, 0), (10, 10), (0, 10)],
      (ShapeData.bbox ⟨0, 0, 0, 0,
          some [⟨some 1, 0, 0⟩, ⟨some 1, 0, 1/10⟩, ⟨some 1, 1/10, 1/10⟩,
                ⟨some 1, 1/10, 0⟩], none, 100, 100⟩).x2 = p.1) ∧
    (∃ p ∈ [((0:Int), (0:Int)), (10, 0), (10, 10), (0, 10)],
      (ShapeData.bbox ⟨0, 0, 0, 0,
          some [⟨some 1, 0, 0⟩, ⟨some 1, 0, 1/10⟩, ⟨some 1, 1/10, 1/10⟩,
                ⟨some 1, 1/10, 0⟩], none, 100, 100⟩).y2 = p.2) :=
  ((C6_shape_bbox_envelope.1 ⟨0, 0, 0, 0,
      some [⟨some 1, 0, 0⟩, ⟨some 1, 0, 1/10⟩, ⟨some 1, 1/10, 1/10⟩,
            ⟨some 1, 1/10, 0⟩], none, 100, 100⟩ rfl).2.2
    [(0, 0), (10, 0), (10, 10), (0, 10)]
    (by norm_num [ShapeData.anchors, pyInt, List.filterMap_cons, List.filterMap_nil])
    (by norm_num))

lemma place_layer_mode (lb bb : BBox) (i : Image) :
    ((place_layer lb bb i).1).mode = i.mode := by
  unfold place_layer
  by_cases h : lb.x1 - bb.x1 < 0 ∨ lb.y1 - bb.y1 < 0
  · simp only [if_pos h]
    rfl
  · simp only [if_neg h]

lemma process_step_blend_unchanged (layer : MLayer) (rv : Bool)
    (skip : MLayer → Bool) (bb : BBox) (st : Image) (img : Image) (lb : BBox)
    (hbb : layer.bbox = some lb)
    (hbl : ∀ x y, blend_step st
        (place_layer lb bb (Image.applyOpacity img layer.opacity)).1
        layer.blend_mode x y = st) :
    process_step layer rv skip bb st (Except.ok (some img)) = Except.ok st := by
  unfold process_step
  rw [hbb]
  dsimp only
  split
  · rfl
  · split
    · rfl
    · split
      · rfl
      · exact congrArg Except.ok (hbl _ _)

/-- C8: only the normal blend mode is implemented: an RGBA raster is
alpha-composited over the canvas (through a transparent canvas-sized
buffer), an RGB raster is pasted directly; any other blend mode, or an
unsupported raster format, leaves the canvas unchanged (the layer
contributes nothing) and merging a list containing such a layer equals
merging the list without it, so the remaining layers are processed. -/
theorem C8_normal_blend_only (lb : BBox) (v : Bool) (o : Int) (img : Image) :
    (∀ st limg bm x y, bm ≠ "norm" → blend_step st limg bm x y = st) ∧
    (∀ st limg x y, limg.mode ≠ "RGBA" → limg.mode ≠ "RGB" →
      blend_step st limg "norm" x y = st) ∧
    (∀ st limg x y, limg.mode = "RGBA" →
      blend_step st limg "norm" x y =
        Image.alphaComposite st
          (Image.paste (Image.new st.size.1 st.size.2) limg x y)) ∧
    (∀ st limg x y, limg.mode = "RGB" →
      blend_step st limg "norm" x y = Image.paste st limg x y) ∧
    (∀ bm rv skip bb st, bm ≠ "norm" →
      process_layer (MLayer.leaf lb v o bm img) rv skip bb st = Except.ok st) ∧
    (∀ rv skip bb st, img.mode ≠ "RGBA" → img.mode ≠ "RGB" →
      process_layer (MLayer.leaf lb v o "norm" img) rv skip bb st = Except.ok st) ∧
    (∀ bm as bs rv skip bb, bm ≠ "norm" →
      merge_layers (as ++ MLayer.leaf lb v o bm img :: bs) rv skip (some bb) =
        merge_layers (as ++ bs) rv skip (some bb)) := by
  have hA : ∀ (st limg : Image) (bm : String) (x y : Int), bm ≠ "norm" →
      blend_step st limg bm x y = st := by
    intro st limg bm x y h
    unfold blend_step
    rw [if_neg h]
  have hB : ∀ (st limg : Image) (x y : Int), limg.mode ≠ "RGBA" →
      limg.mode ≠ "RGB" → blend_step st limg "norm" x y = st := by
    intro st limg x y h1 h2
    unfold blend_step
    simp [h1, h2]
  have hE : ∀ (bm : String) rv skip (bb : BBox) (st : Image), bm ≠ "norm" →
      process_layer (MLayer.leaf lb v o bm img) rv skip bb st = Except.ok st := by
    intro bm rv skip bb st hbm
    unfold process_layer
    have hli : layer_image (MLayer.leaf lb v o bm img) rv skip =
        Except.ok (some img) := by
      rw [layer_image]
    rw [hli]
    exact process_step_blend_unchanged _ rv skip bb st img lb (by simp [MLayer.bbox])
      (fun x y => hA st _ bm x y hbm)
  have hF : ∀ rv skip (bb : BBox) (st : Image), img.mode ≠ "RGBA" →
      img.mode ≠ "RGB" →
      process_layer (MLayer.leaf lb v o "norm" img) rv skip bb st =
        Except.ok st := by
    intro rv skip bb st h1 h2
    unfold process_layer
    have hli : layer_image (MLayer.leaf lb v o "norm" img) rv skip =
        Except.ok (some img) := by
      rw [layer_image]
    rw [hli]
    refine process_step_blend_unchanged _ rv skip bb st img lb
      (by simp [MLayer.bbox]) (fun x y => hB st _ x y ?_ ?_)
    · rw [place_layer_mode]; exact h1
    · rw [place_layer_mode]; exact h2
  refine ⟨hA, hB, ?_, ?_, hE, hF, ?_⟩
  · intro st limg x y h
    unfold blend_step
    simp [h]
  · intro st limg x y h
    unfold blend_step
    simp [h]
  · intro bm as bs rv skip bb hbm
    exact merge_layers_insert_skippable _ rv skip bb
      (fun st => hE bm rv skip bb st hbm) as bs

/-- Witness for C8_normal_blend_only: a multiply-mode layer leaves the
canvas untouched. -/
theorem C8_normal_blend_only_witness :
    process_layer (MLayer.leaf ⟨0,0,2,2⟩ true 255 "mul " (Image.leaf "RGBA" 2 2 0))
        true (fun _ => false) ⟨0,0,10,10⟩ (Image.new 10 10) =
      Except.ok (Image.new 10 10) :=
  (C8_normal_blend_only ⟨0,0,2,2⟩ true 255 (Image.leaf "RGBA" 2 2 0)).2.2.2.2.1
    "mul " true (fun _ => false) ⟨0,0,10,10⟩ (Image.new 10 10) (by decide)

lemma style_spans_go_spec (text : List Char) (fontset : List Nat) :
    ∀ (runs : List (StyleSheet × Nat)) (start : Nat),
      (∀ r ∈ runs, r.1.font.getD 0 < fontset.length) →
      ∃ spans, style_spans_go text fontset runs start = Except.ok spans ∧
        spans.length = runs.length ∧
        ∀ i run size, runs.get? i = some (run, size) →
          ∃ sp, spans.get? i = some sp ∧ sp.sheet = run ∧
            sp.text = (text.drop (start + ((runs.map Prod.snd).take i).sum)).take size ∧
            fontset.get? (run.font.getD 0) = some sp.font := by
  intro runs
  induction runs with
  | nil =>
    intro start hf
    exact ⟨[], rfl, rfl, fun i run size h => by simp at h⟩
  | cons rs rest ih =>
    obtain ⟨run0, size0⟩ := rs
    intro start hf
    have hf0 : run0.font.getD 0 < fontset.length :=
      hf (run0, size0) (List.mem_cons_self _ _)
    have hfget : fontset.get? (run0.font.getD 0) =
        some (fontset.get ⟨run0.font.getD 0, hf0⟩) := List.get?_eq_get hf0
    obtain ⟨spans, hgo, hlen, hspec⟩ :=
      ih (start + size0) (fun r hr => hf r (List.mem_cons_of_mem _ hr))
    refine ⟨⟨run0, (text.drop start).take size0,
        fontset.get ⟨run0.font.getD 0, hf0⟩⟩ :: spans, ?_, ?_, ?_⟩
    · unfold style_spans_go
      rw [hfget, hgo]
    · simp [hlen]
    · intro i run size hget
      cases i with
      | zero =>
        simp only [List.get?] at hget
        obtain ⟨h1, h2⟩ := Prod.mk.injEq .. ▸ (Option.some.inj hget)
        subst h1
        subst h2
        exact ⟨_, rfl, rfl, by simp, hfget⟩
      | succ j =>
        simp only [List.get?] at hget
        obtain ⟨sp, hsp, hsheet, htext, hfont⟩ := hspec j run size hget
        refine ⟨sp, hsp, hsheet, ?_, hfont⟩
        rw [htext]
        congr 2
        simp [List.sum_cons]
        omega

/-- C10: style_spans walks the zipped run arrays in order keeping a
running character offset: the i-th emitted record copies the i-th run
sheet, carries exactly the text slice starting at the sum of the previous
run lengths with the length of run i, and the font resolved by indexing
the font set with the run font index, defaulting to 0 when the sheet has
no font entry; one record per run, in run order. -/
theorem C10_style_spans_runs (text : List Char) (fontset : List Nat)
    (runarray : List StyleSheet) (runlength : List Nat)
    (hlen : runarray.length = runlength.length)
    (hfont : ∀ run ∈ runarray, run.font.getD 0 < fontset.length) :
    ∃ spans, style_spans text fontset runarray runlength = Except.ok spans ∧
      spans.length = runarray.length ∧
      ∀ i run size, runarray.get? i = some run → runlength.get? i = some size →
        ∃ sp, spans.get? i = some sp ∧ sp.sheet = run ∧
          sp.text = (text.drop ((runlength.take i).sum)).take size ∧
          fontset.get? (run.font.getD 0) = some sp.font := by
  have hzip : ∀ r ∈ runarray.zip runlength, r.1.font.getD 0 < fontset.length := by
    intro r hr
    obtain ⟨a, b⟩ := r
    exact hfont a (List.of_mem_zip hr).1
  obtain ⟨spans, hgo, hlen2, hspec⟩ :=
    style_spans_go_spec text fontset (runarray.zip runlength) 0 hzip
  have hmapsnd : (runarray.zip runlength).map Prod.snd = runlength :=
    List.map_snd_zip runarray runlength (le_of_eq hlen.symm)
  refine ⟨spans, hgo, ?_, ?_⟩
  · rw [hlen2, List.length_zip, hlen, Nat.min_self]
  · intro i run size h1 h2
    have hz : (runarray.zip runlength).get? i = some (run, size) :=
      (List.get?_zip_eq_some runarray runlength (run, size) i).mpr ⟨h1, h2⟩
    obtain ⟨sp, hsp, hsheet, htext, hfont2⟩ := hspec i run size hz
    refine ⟨sp, hsp, hsheet, ?_, hfont2⟩
    rw [htext, hmapsnd]
    simp

/-- Witness for C10_style_spans_runs on a concrete two-run text layer. -/
theorem C10_style_spans_runs_witness :
    ∃ spans, style_spans "abcdef".toList [10, 20]
        [⟨some 1, 0⟩, ⟨none, 0⟩] [2, 3] = Except.ok spans ∧
      spans.length = 2 ∧
      ∀ i run size,
        ([⟨some 1, 0⟩, ⟨none, 0⟩] : List StyleSheet).get? i = some run →
        ([2, 3] : List Nat).get? i = some size →
        ∃ sp, spans.get? i = some sp ∧ sp.sheet = run ∧
          sp.text = ("abcdef".toList.drop ((([2, 3] : List Nat).take i).sum)).take size ∧
          ([10, 20] : List Nat).get? (run.font.getD 0) = some sp.font :=
  C10_style_spans_runs "abcdef".toList [10, 20] [⟨some 1, 0⟩, ⟨none, 0⟩] [2, 3]
    (by decide) (by decide)

/-- C7 counterexample: the claim says a missing field inside a present
placed-layer block degrades the query to null; on the code a present
non-empty block without the TRANSFORM (resp. SIZE) key makes
transform_bbox (resp. placed_layer_size) raise KeyError, and a block
without the ID key makes unique_id raise AttributeError on None.value. -/
theorem C7_missing_field_raises :
    SOLayer.transform_bbox
        ⟨some [(PlacedLayerProperty.ID, PValue.scalar 7)], none, none, none, []⟩ =
      Except.error "KeyError: Trnf" ∧
    SOLayer.placed_layer_size
        ⟨some [(PlacedLayerProperty.ID, PValue.scalar 7)], none, none, none, []⟩ =
      Except.error "KeyError: Sz" ∧
    SOLayer.unique_id
        ⟨some [(PlacedLayerProperty.TRANSFORM, PValue.descriptor [])],
         none, none, none, []⟩ =
      Except.error "AttributeError: NoneType has no attribute value" := by
  refine ⟨rfl, rfl, rfl⟩

/-- C7 amended: the placed-layer block is probed in the fixed priority
order modern block, then the three legacy blocks; when the probe finds no
block at all, unique_id, transform_bbox, placed_layer_size and linked_data
each return null rather than raising. -/
theorem C7_no_block_degrades_to_none :
    (∀ s : SOLayer, s.placed_layer_block = none →
      s.unique_id = Except.ok none ∧
      s.transform_bbox = Except.ok none ∧
      s.placed_layer_size = Except.ok none ∧
      s.linked_data = Except.ok none) ∧
    (∀ (s : SOLayer) b, s.smart_object_placed_layer_data = some b →
      s.placed_layer_block = some b) ∧
    (∀ (s : SOLayer) b, s.smart_object_placed_layer_data = none →
      s.placed_layer_data = some b → s.placed_layer_block = some b) ∧
    (∀ (s : SOLayer) b, s.smart_object_placed_layer_data = none →
      s.placed_layer_data = none → s.placed_layer_obsolete1 = some b →
      s.placed_layer_block = some b) ∧
    (∀ s : SOLayer, s.smart_object_placed_layer_data = none →
      s.placed_layer_data = none → s.placed_layer_obsolete1 = none →
      s.placed_layer_block = s.placed_layer_obsolete2) := by
  refine ⟨?_, ?_, ?_, ?_, ?_⟩
  · intro s h
    have hu : s.unique_id = Except.ok none := by
      simp [SOLayer.unique_id, SOLayer.placed, h]
    refine ⟨hu, ?_, ?_, ?_⟩
    · simp [SOLayer.transform_bbox, h]
    · simp [SOLayer.placed_layer_size, h]
    · simp [SOLayer.linked_data, hu]
  · intro s b h
    simp [SOLayer.placed_layer_block, h]
  · intro s b h1 h2
    simp [SOLayer.placed_layer_block, h1, h2]
  · intro s b h1 h2 h3
    simp [SOLayer.placed_layer_block, h1, h2, h3]
  · intro s h1 h2 h3
    simp [SOLayer.placed_layer_block, h1, h2, h3]

/-- Witness for C7_no_block_degrades_to_none on a layer with no placed
block. -/
theorem C7_no_block_degrades_to_none_witness :
    SOLayer.unique_id ⟨none, none, none, none, []⟩ = Except.ok none ∧
    SOLayer.transform_bbox ⟨none, none, none, none, []⟩ = Except.ok none ∧
    SOLayer.placed_layer_size ⟨none, none, none, none, []⟩ = Except.ok none ∧
    SOLayer.linked_data ⟨none, none, none, none, []⟩ = Except.ok none :=
  C7_no_block_degrades_to_none.1 ⟨none, none, none, none, []⟩ rfl
